import Mathlib

/-!
Shallow embedding of the TawinCWA data-acquisition pipeline.

The embedding covers, faithfully to the Python source:
 - src/utils/validators.py       (DataValidator.get_data_quality_score)
 - src/crawler/base_crawler.py   (BaseCrawler._make_request) and src/config.py
 - src/crawler/data_service.py   (health score, refresh policy, fetch-and-store)
 - src/database/db_manager.py    (the SQLite store: saves, queries, cleanup,
   freshness tracking, API-call log)
 - src/utils/taiwan_weather_helper.py (payload parsing)

Modelling conventions: machine floats are modelled as rationals; wall-clock
timestamps as integers (seconds); every call to datetime.now() inside one
store operation is modelled by a single instant passed as a parameter;
SQL NULL is Option.none; a fallible Python operation is Except/Option.
-/

/-! ### Python string primitives

Implemented by structural recursion over the character list so every
definition evaluates inside the kernel. -/

/-- If pat is a leading segment of l, the remainder of l after it. -/
def prefixEat : List Char → List Char → Option (List Char)
  | [], l => some l
  | _ :: _, [] => none
  | p :: ps, c :: cs => if p = c then prefixEat ps cs else none

/-- Substring occurrence test on character lists. -/
def containsSub : List Char → List Char → Bool
  | [], pat => pat.isEmpty
  | c :: cs, pat => (prefixEat pat (c :: cs)).isSome || containsSub cs pat

/-- Python substring test (pat in s). -/
def strContains (s pat : String) : Bool :=
  containsSub s.data pat.data

/-- Python s.endswith(pat). -/
def strEndsWith (s pat : String) : Bool :=
  (prefixEat pat.data.reverse s.data.reverse).isSome

/-- Split a character list at every occurrence of the separator char. -/
def splitOnCharGo (sep : Char) : List Char → List Char → List (List Char)
  | [], acc => [acc.reverse]
  | x :: xs, acc =>
      if x = sep then acc.reverse :: splitOnCharGo sep xs []
      else splitOnCharGo sep xs (x :: acc)

def splitOnChar (sep : Char) (l : List Char) : List (List Char) :=
  splitOnCharGo sep l []

/-- Replace every non-overlapping occurrence of pat (nonempty) left to
right; the fuel is an upper bound on the characters still to scan. -/
def replaceFuel (pat rep : List Char) : Nat → List Char → List Char
  | 0, l => l
  | fuel + 1, l =>
      match l with
      | [] => []
      | c :: cs =>
          match prefixEat pat l with
          | some rest => rep ++ replaceFuel pat rep fuel rest
          | none => c :: replaceFuel pat rep fuel cs

/-- Python s.replace(pat, rep) for a nonempty pattern (the call sites use
the literal patterns "value" and "_"). -/
def strReplace (s pat rep : String) : String :=
  if pat.data.isEmpty then s
  else String.mk (replaceFuel pat.data rep.data s.data.length s.data)

/-- Join character-list words with a separator. -/
def joinWith (sep : List Char) : List (List Char) → List Char
  | [] => []
  | [x] => x
  | x :: y :: rest => x ++ sep ++ joinWith sep (y :: rest)

/-- Strip leading and trailing whitespace. -/
def listTrim (l : List Char) : List Char :=
  ((l.dropWhile Char.isWhitespace).reverse.dropWhile Char.isWhitespace).reverse

/-- Python str.isdigit restricted to ASCII: true iff the string is nonempty
and every character is a decimal digit. -/
def pyIsDigit (s : String) : Bool :=
  s.length != 0 && s.data.all Char.isDigit

/-- Python s.replace(".", ""): drop every dot. -/
def stripDots (s : String) : String :=
  String.mk (s.data.filter (fun c => c != '.'))

/-- Numeric value of a list of decimal digit characters. -/
def natOfDigits (l : List Char) : Nat :=
  l.foldl (fun a c => a * 10 + (c.toNat - 48)) 0

/-- Value of a decimal literal split at the dot. -/
def decOfParts (ip fp : List Char) : ℚ :=
  (natOfDigits ip : ℚ) + (natOfDigits fp : ℚ) / ((10 : ℚ) ^ fp.length)

/-- Python float(s) on the decimal literals this pipeline feeds it: an
optional sign and digits with at most one dot (float itself strips
surrounding whitespace). Any other shape (in particular a second dot)
raises in Python, modelled by none. Exponent and infinity syntaxes are
outside the input range of the modelled call sites. -/
def pyFloat (s : String) : Option ℚ :=
  let t := listTrim s.data
  let sign : ℚ := if t.head? = some '-' then -1 else 1
  let u := if t.head? = some '-' then t.drop 1 else t
  match splitOnChar '.' u with
  | [ip] =>
      if !ip.isEmpty && ip.all Char.isDigit then some (sign * (natOfDigits ip : ℚ))
      else none
  | [ip, fp] =>
      if (!ip.isEmpty || !fp.isEmpty) && ip.all Char.isDigit && fp.all Char.isDigit then
        some (sign * decOfParts ip fp)
      else none
  | _ => none

/-! ### Quality Validator (src/utils/validators.py, get_data_quality_score) -/

/-- A pandas DataFrame as the validator sees it: a column count and the grid
of cells; a missing value (NaN) is none. -/
structure PyTable where
  ncols : Nat
  rows : List (List (Option String))
deriving DecidableEq

/-- Pandas df.empty: true when either axis has length zero. -/
def PyTable.isEmptyTable (t : PyTable) : Bool :=
  t.rows.isEmpty || t.ncols == 0

/-- Count of null cells in the table (df.isnull().sum().sum()). -/
def countMissing (t : PyTable) : Nat :=
  (t.rows.map (fun r => (r.filter Option.isNone).length)).sum

/-- Count of rows that duplicate an earlier row (df.duplicated().sum();
pandas marks every occurrence after the first, treating NaN as equal). -/
def countDupsGo {α : Type} [DecidableEq α] : List α → List α → Nat
  | _, [] => 0
  | seen, x :: xs => (if x ∈ seen then 1 else 0) + countDupsGo (x :: seen) xs

def countDupRows (t : PyTable) : Nat :=
  countDupsGo [] t.rows

/-- Distinct non-null values of column j (pandas Series.nunique, which
ignores NaN). -/
def colNunique (t : PyTable) (j : Nat) : Nat :=
  ((t.rows.filterMap (fun r => r.getD j none)).dedup).length

/-- Number of columns whose nunique is at most 1. -/
def countConstantCols (t : PyTable) : Nat :=
  ((List.range t.ncols).filter (fun j => colNunique t j ≤ 1)).length

/-- DataValidator.get_data_quality_score, line by line: start at 100,
subtract 0.5 x missing%, 0.3 x duplicate-row%, 0.2 x constant-column%,
then clamp into [0, 100]. None/empty input scores 0. -/
def get_data_quality_score (t : PyTable) : ℚ :=
  if t.isEmptyTable then 0 else
  let score0 : ℚ := 100
  let missing_percentage : ℚ :=
    ((countMissing t : ℚ) / ((t.rows.length : ℚ) * (t.ncols : ℚ))) * 100
  let score1 := score0 - missing_percentage * (1/2)
  let duplicate_percentage : ℚ := ((countDupRows t : ℚ) / (t.rows.length : ℚ)) * 100
  let score2 := score1 - duplicate_percentage * (3/10)
  let constant_percentage : ℚ := ((countConstantCols t : ℚ) / (t.ncols : ℚ)) * 100
  let score3 := score2 - constant_percentage * (1/5)
  max 0 (min 100 score3)

/-- The quality-score formula exactly as the specification words it:
100 minus 0.5 x missingPercentage minus 0.3 x duplicateRowPercentage minus
0.2 x constantColumnPercentage, clamped to [0,100]. -/
def qualityScoreSpec (t : PyTable) : ℚ :=
  let missingPercentage : ℚ :=
    ((countMissing t : ℚ) / ((t.rows.length : ℚ) * (t.ncols : ℚ))) * 100
  let duplicateRowPercentage : ℚ := ((countDupRows t : ℚ) / (t.rows.length : ℚ)) * 100
  let constantColumnPercentage : ℚ := ((countConstantCols t : ℚ) / (t.ncols : ℚ)) * 100
  max 0 (min 100
    (100 - (1/2) * missingPercentage - (3/10) * duplicateRowPercentage
      - (1/5) * constantColumnPercentage))

/-! ### HTTP Fetcher (src/crawler/base_crawler.py _make_request, src/config.py) -/

/-- CrawlerConfig.REQUEST_DELAY. -/
def REQUEST_DELAY : ℚ := 1

/-- CrawlerConfig.MAX_RETRIES. -/
def MAX_RETRIES : Nat := 3

/-- Outcome the network gives to one GET attempt: a response (identified by
a payload id) or a requests.RequestException with its message. -/
inductive Attempt where
  | ok (resp : Nat)
  | err (cause : String)
deriving DecidableEq

/-- The retry loop of _make_request: attempt i is tried for
i = k0, k0+1, ... while fuel lasts; on failure at the last allowed attempt
return None, otherwise sleep 2^i seconds and retry. Returns the backoff
sleeps performed and the final result. -/
def requestLoop (attempts : Nat → Attempt) : Nat → Nat → List ℚ × Option Nat
  | 0, _ => ([], none)
  | fuel + 1, i =>
      match attempts i with
      | Attempt.ok r => ([], some r)
      | Attempt.err _ =>
          if i = MAX_RETRIES - 1 then ([], none)
          else
            let rest := requestLoop attempts fuel (i + 1)
            (((2 : ℚ) ^ i) :: rest.1, rest.2)

/-- BaseCrawler._make_request: sleep the configured rate-limit delay
(config.get two-argument form, defaulting to REQUEST_DELAY), then run the
retry loop over MAX_RETRIES attempts. Result: the full list of sleeps
performed, and the response if any attempt succeeded (None after the last
failure; the cause is only logged). -/
def make_request (rateLimit : Option ℚ) (attempts : Nat → Attempt) : List ℚ × Option Nat :=
  let delay := rateLimit.getD REQUEST_DELAY
  let loop := requestLoop attempts MAX_RETRIES 0
  (delay :: loop.1, loop.2)

/-- Modelled from the spec: the fetch contract as the specification words
it, identical rate limiting and retry schedule, but the terminal failure is
a FetchError value carrying the cause of the last failed attempt. The
repository has no such error type; this definition exists only to compare
the spec's words with make_request. -/
def fetchSpecLoop (attempts : Nat → Attempt) : Nat → Nat → List ℚ × Except String Nat
  | 0, _ => ([], Except.error "")
  | fuel + 1, i =>
      match attempts i with
      | Attempt.ok r => ([], Except.ok r)
      | Attempt.err cause =>
          if i = MAX_RETRIES - 1 then ([], Except.error cause)
          else
            let rest := fetchSpecLoop attempts fuel (i + 1)
            (((2 : ℚ) ^ i) :: rest.1, rest.2)

def fetchSpecModel (rateLimit : Option ℚ) (attempts : Nat → Attempt) :
    List ℚ × Except String Nat :=
  let delay := rateLimit.getD REQUEST_DELAY
  let loop := fetchSpecLoop attempts MAX_RETRIES 0
  (delay :: loop.1, loop.2)

/-- A network that fails every attempt with a timeout. -/
def allTimeout : Nat → Attempt := fun _ => Attempt.err "timeout"

/-- A network that fails every attempt with a refused connection. -/
def allRefused : Nat → Attempt := fun _ => Attempt.err "connection refused"

/-! ### Health score (src/crawler/data_service.py _calculate_health_score) -/

/-- A data age in hours as _calculate_data_age_hours reports it: a finite
number of hours, or float('inf') when the stored timestamp does not parse. -/
inductive AgeHours where
  | fin (hrs : ℚ)
  | infty
deriving DecidableEq

/-- Python (age_hours > threshold) where age_hours may be float('inf'). -/
def AgeHours.gtB : AgeHours → ℚ → Bool
  | AgeHours.infty, _ => true
  | AgeHours.fin a, t => decide (t < a)

/-- WeatherDataService.refresh_thresholds plus the .get default of 6 hours. -/
def refreshThreshold (dataType : String) : ℚ :=
  if dataType == "weather_forecasts" then 3
  else if dataType == "earthquakes" then 1
  else if dataType == "weather_observations" then 1/2
  else 6

/-- The db_stats fields _calculate_health_score reads, each possibly absent
(dict.get with defaults 100 and 0). -/
structure DbStats where
  api_success_rate : Option ℚ
  db_size_mb : Option ℚ
deriving DecidableEq

/-- Age-staleness deduction for one data type: 20 points past twice the
threshold, else 10 points past the threshold. -/
def ageDeduction (threshold : ℚ) (age : AgeHours) : ℚ :=
  if AgeHours.gtB age (threshold * 2) then 20
  else if AgeHours.gtB age threshold then 10
  else 0

/-- WeatherDataService._calculate_health_score, line by line: 100, minus the
per-type age deductions, minus (100 - rate)/2 but only when the success rate
is below 80, minus min(20, (size-100)/10) when the database exceeds 100 MB,
clamped into [0, 100]. -/
def calculate_health_score (freshness : List (String × AgeHours)) (stats : DbStats) : ℚ :=
  let score0 : ℚ := 100
  let score1 := freshness.foldl
    (fun acc p => acc - ageDeduction (refreshThreshold p.1) p.2) score0
  let rate := stats.api_success_rate.getD 100
  let score2 := if rate < 80 then score1 - (100 - rate) / 2 else score1
  let size := stats.db_size_mb.getD 0
  let score3 := if size > 100 then score2 - min 20 ((size - 100) / 10) else score2
  max 0 (min 100 score3)

/-- The health-score formula exactly as the claim words it: the success-rate
term (100 - successRate)/2 is subtracted unconditionally. -/
def healthScoreClaim (freshness : List (String × AgeHours)) (stats : DbStats) : ℚ :=
  let over2 := (freshness.filter
    (fun p => AgeHours.gtB p.2 (refreshThreshold p.1 * 2))).length
  let over1 := (freshness.filter
    (fun p => AgeHours.gtB p.2 (refreshThreshold p.1)
      && !AgeHours.gtB p.2 (refreshThreshold p.1 * 2))).length
  let rate := stats.api_success_rate.getD 100
  let size := stats.db_size_mb.getD 0
  let sizePenalty := if size > 100 then min 20 ((size - 100) / 10) else 0
  max 0 (min 100
    (100 - 20 * (over2 : ℚ) - 10 * (over1 : ℚ) - (100 - rate) / 2 - sizePenalty))

/-- The claim's formula amended minimally to match the code: the
success-rate term is applied only when the 24h success rate is below 80. -/
def healthScoreAmended (freshness : List (String × AgeHours)) (stats : DbStats) : ℚ :=
  let over2 := (freshness.filter
    (fun p => AgeHours.gtB p.2 (refreshThreshold p.1 * 2))).length
  let over1 := (freshness.filter
    (fun p => AgeHours.gtB p.2 (refreshThreshold p.1)
      && !AgeHours.gtB p.2 (refreshThreshold p.1 * 2))).length
  let rate := stats.api_success_rate.getD 100
  let ratePenalty := if rate < 80 then (100 - rate) / 2 else 0
  let size := stats.db_size_mb.getD 0
  let sizePenalty := if size > 100 then min 20 ((size - 100) / 10) else 0
  max 0 (min 100
    (100 - 20 * (over2 : ℚ) - 10 * (over1 : ℚ) - ratePenalty - sizePenalty))

/-! ### The persistent store (src/database/db_manager.py) -/

/-- A row of the weather_forecasts table. The INSERT names eleven columns;
wind_direction is never inserted and stays NULL, so it is omitted here.
forecast_time and created_at are timestamps (modelled as integers);
raw_data is the json dump of the source row, modelled as that row. -/
structure ForecastRow where
  location : Option String
  forecast_time : Int
  temperature : Option ℚ
  temperature_unit : Option String
  weather_condition : Option String
  rain_probability : Option ℚ
  humidity : Option ℚ
  wind_speed : Option ℚ
  start_time : Option String
  end_time : Option String
  raw_data : List (Option String)
  created_at : Int
deriving DecidableEq

/-- A row of the earthquakes table. -/
structure EqRow where
  earthquake_no : Option String
  origin_time : Option String
  magnitude_value : Option ℚ
  magnitude_type : Option String
  depth : Option ℚ
  location : Option String
  epicenter_lat : Option ℚ
  epicenter_lon : Option ℚ
  report_type : Option String
  report_content : Option String
  web_url : Option String
  raw_data : List (Option String)
  created_at : Int
deriving DecidableEq

/-- A row of the api_logs table. -/
structure LogRow where
  endpoint : String
  api_source : String
  success : Bool
  response_time : Option ℚ
  records_processed : Option Nat
  error_message : Option String
  called_at : Int
deriving DecidableEq

/-- A row of the data_freshness table. last_update is a TEXT column; the
model keeps the instant it denotes, with none standing for a stored string
datetime.fromisoformat cannot parse. -/
structure FreshRow where
  data_type : String
  last_update : Option Int
  record_count : Nat
  data_quality_score : Option ℚ
deriving DecidableEq

/-- The database: the four tables the claims touch, each as its list of
rows in insertion order. -/
structure DBState where
  weather_forecasts : List ForecastRow
  earthquakes : List EqRow
  api_logs : List LogRow
  data_freshness : List FreshRow
deriving DecidableEq

def dbEmpty : DBState := ⟨[], [], [], []⟩

/-- A pandas DataFrame: its column names and its rows, each row aligned
with the columns; a missing cell (NaN) is none. -/
structure PyFrame where
  cols : List String
  rows : List (List (Option String))
deriving DecidableEq

/-- Pandas df.empty (either axis of length zero). -/
def PyFrame.isEmptyFrame (df : PyFrame) : Bool :=
  df.rows.isEmpty || df.cols.isEmpty

/-- Series row.get(c): the cell under column c, or Python None when the
column is absent. The outer Option is column presence, the inner the cell. -/
def pyGet (cols : List String) (row : List (Option String)) (c : String) :
    Option (Option String) :=
  ((cols.zip row).find? (fun p => p.1 == c)).map Prod.snd

/-- Series row.get(c, dflt): as pyGet but an absent column yields dflt. -/
def pyGetD (cols : List String) (row : List (Option String)) (c dflt : String) :
    Option String :=
  match pyGet cols row c with
  | none => some dflt
  | some cell => cell

/-- Python truthiness of a cell: None and the empty string are falsy. -/
def cellTruthy : Option String → Bool
  | none => false
  | some s => s.length != 0

/-- save_weather_forecast's numeric-parameter extraction: take the first
column whose name contains the marker and contains "value"; if its cell is
truthy and all-digits after dropping dots, convert with float(). A string
that passes the digit guard yet has two dots makes float() raise; the error
aborts the whole save. -/
def numValue (cols : List String) (row : List (Option String)) (marker : String) :
    Except String (Option ℚ) :=
  match (cols.filter (fun c => strContains c marker && strContains c "value")).head? with
  | none => Except.ok none
  | some c =>
      match pyGet cols row c with
      | none => Except.ok none
      | some cell =>
          if cellTruthy cell && pyIsDigit (stripDots (cell.getD "")) then
            match pyFloat (cell.getD "") with
            | some q => Except.ok (some q)
            | none => Except.error "could not convert string to float"
          else Except.ok none

/-- The fields save_weather_forecast extracts from one DataFrame row before
inserting, or the exception raised while extracting. -/
structure ForecastFields where
  location : Option String
  temperature : Option ℚ
  temperature_unit : Option String
  weather_condition : Option String
  rain_probability : Option ℚ
  humidity : Option ℚ
  wind_speed : Option ℚ
  start_time : Option String
  end_time : Option String
deriving DecidableEq

def extractForecastFields (cols : List String) (row : List (Option String)) :
    Except String ForecastFields := do
  let location := pyGetD cols row "location" ""
  let tempCols := cols.filter (fun c => strContains c "T_" && strContains c "value")
  let temperature ← numValue cols row "T_"
  let temperature_unit :=
    match tempCols.head? with
    | none => none
    | some c =>
        if temperature.isSome then
          pyGetD cols row (strReplace c "value" "unit") "Â°C"
        else none
  let wxCols := cols.filter (fun c => strContains c "Wx_" && strContains c "name")
  let weather_condition :=
    match wxCols.head? with
    | none => none
    | some c => pyGetD cols row c ""
  let rain_probability ← numValue cols row "PoP_"
  let humidity ← numValue cols row "RH_"
  let wind_speed ← numValue cols row "WS_"
  let start_time :=
    match (cols.filter (fun c => strEndsWith c "_start")).head? with
    | none => none
    | some c => (pyGet cols row c).join
  let end_time :=
    match (cols.filter (fun c => strEndsWith c "_end")).head? with
    | none => none
    | some c => (pyGet cols row c).join
  pure ⟨location, temperature, temperature_unit, weather_condition,
    rain_probability, humidity, wind_speed, start_time, end_time⟩

/-- The UNIQUE(location, forecast_time, start_time) conflict test. SQLite
treats NULLs as distinct in a UNIQUE constraint, so a NULL start_time never
conflicts (location and forecast_time are NOT NULL in practice). -/
def forecastConflict (a b : ForecastRow) : Bool :=
  a.location == b.location && a.forecast_time == b.forecast_time &&
    (match a.start_time, b.start_time with
     | some s, some t => s == t
     | _, _ => false)

/-- INSERT OR REPLACE INTO weather_forecasts: delete every conflicting row,
then append the new one. -/
def insertOrReplaceForecast (tbl : List ForecastRow) (r : ForecastRow) : List ForecastRow :=
  (tbl.filter (fun x => !forecastConflict x r)) ++ [r]

/-- The insert loop of save_weather_forecast. Errors (a float() failure, an
injected database error at row index dbErr, a NOT NULL violation) carry the
records_saved counter at the moment they are raised. -/
def saveForecastLoop (now : Int) (cols : List String) (dbErr : Option Nat) :
    List (List (Option String)) → Nat → List ForecastRow →
      Except Nat (Nat × List ForecastRow)
  | [], n, tbl => Except.ok (n, tbl)
  | row :: rest, n, tbl =>
      if dbErr == some n then Except.error n
      else
        match extractForecastFields cols row with
        | Except.error _ => Except.error n
        | Except.ok f =>
            if f.location == none then Except.error n
            else
              saveForecastLoop now cols dbErr rest (n + 1)
                (insertOrReplaceForecast tbl
                  ⟨f.location, now, f.temperature, f.temperature_unit,
                   f.weather_condition, f.rain_probability, f.humidity,
                   f.wind_speed, f.start_time, f.end_time, row, now⟩)

/-- _update_data_freshness: INSERT OR REPLACE keyed on data_type, quality
score left NULL at this call site. -/
def update_data_freshness (st : DBState) (dataType : String) (recordCount : Nat)
    (now : Int) : DBState :=
  { st with data_freshness :=
      (st.data_freshness.filter (fun r => r.data_type != dataType))
        ++ [⟨dataType, some now, recordCount, none⟩] }

/-- save_weather_forecast: None or empty input saves nothing; otherwise run
the insert loop in one transaction. An exception rolls the transaction back
(table and freshness untouched) but still returns the counter; on success
commit and update the freshness entry. -/
def save_weather_forecast (st : DBState) (df : Option PyFrame) (now : Int)
    (dbErr : Option Nat) : Nat × DBState :=
  match df with
  | none => (0, st)
  | some f =>
      if f.isEmptyFrame then (0, st)
      else
        match saveForecastLoop now f.cols dbErr f.rows 0 st.weather_forecasts with
        | Except.error n => (n, st)
        | Except.ok (n, tbl) =>
            (n, update_data_freshness { st with weather_forecasts := tbl }
              "weather_forecasts" n now)

/-- float(x) if x else None, wrapped in try/except that yields None. -/
def pyFloatLenient (cell : Option String) : Option ℚ :=
  match cell with
  | none => none
  | some s => if s.length != 0 then pyFloat s else none

/-- The UNIQUE(earthquake_no) conflict test (NULLs never conflict). -/
def eqConflict (a b : EqRow) : Bool :=
  match a.earthquake_no, b.earthquake_no with
  | some x, some y => x == y
  | _, _ => false

def insertOrReplaceEq (tbl : List EqRow) (r : EqRow) : List EqRow :=
  (tbl.filter (fun x => !eqConflict x r)) ++ [r]

/-- The insert loop of save_earthquake_data. The numeric conversions are
individually wrapped in try/except and never raise; only an injected
database error or a NOT NULL origin_time aborts. -/
def saveEqLoop (now : Int) (cols : List String) (dbErr : Option Nat) :
    List (List (Option String)) → Nat → List EqRow → Except Nat (Nat × List EqRow)
  | [], n, tbl => Except.ok (n, tbl)
  | row :: rest, n, tbl =>
      if dbErr == some n then Except.error n
      else
        let origin_time := pyGetD cols row "origin_time" ""
        if origin_time == none then Except.error n
        else
          saveEqLoop now cols dbErr rest (n + 1)
            (insertOrReplaceEq tbl
              ⟨pyGetD cols row "earthquake_no" "",
               origin_time,
               pyFloatLenient ((pyGet cols row "magnitude_value").join),
               pyGetD cols row "magnitude_type" "",
               pyFloatLenient ((pyGet cols row "depth").join),
               pyGetD cols row "location" "",
               pyFloatLenient ((pyGet cols row "epicenter_lat").join),
               pyFloatLenient ((pyGet cols row "epicenter_lon").join),
               pyGetD cols row "report_type" "",
               pyGetD cols row "report_content" "",
               pyGetD cols row "web_url" "",
               row, now⟩)

/-- save_earthquake_data, same transaction shape as save_weather_forecast. -/
def save_earthquake_data (st : DBState) (df : Option PyFrame) (now : Int)
    (dbErr : Option Nat) : Nat × DBState :=
  match df with
  | none => (0, st)
  | some f =>
      if f.isEmptyFrame then (0, st)
      else
        match saveEqLoop now f.cols dbErr f.rows 0 st.earthquakes with
        | Except.error n => (n, st)
        | Except.ok (n, tbl) =>
            (n, update_data_freshness { st with earthquakes := tbl }
              "earthquakes" n now)

/-- log_api_call: append-only insert into api_logs. -/
def log_api_call (st : DBState) (endpoint apiSource : String) (success : Bool)
    (responseTime : Option ℚ) (recordsProcessed : Option Nat)
    (errorMessage : Option String) (now : Int) : DBState :=
  { st with api_logs := st.api_logs ++
      [⟨endpoint, apiSource, success, responseTime, recordsProcessed, errorMessage, now⟩] }

/-! #### TEXT timestamp comparisons

The created_at/called_at columns are filled by SQLite's CURRENT_TIMESTAMP:
UTC, format "YYYY-MM-DD HH:MM:SS". Every cutoff bound into a WHERE clause
is datetime.now().isoformat(): local time, format
"YYYY-MM-DDTHH:MM:SS.ffffff". SQLite compares TEXT by memcmp. On such a
pair the first ten bytes are the zero-padded dates, where byte order equals
calendar order; when the dates coincide, byte 10 decides: the row's
' ' (0x20) sorts strictly below the cutoff's 'T' (0x54), whatever the
times of day. Hence for a stored row r and a cutoff c:
  r < c  iff  utc-date(r) is on or before local-date(c), and
  r > c  iff  utc-date(r) is strictly after local-date(c).
Only the two calendar dates matter. The model keeps instants as integer
seconds plus the local UTC offset tz, and compares through the derived
day numbers. Comparisons between two row timestamps (ORDER BY created_at)
stay at instant granularity: there both sides share one format. -/

/-- UTC calendar day number of an instant (floor division). -/
def utcDay (t : Int) : Int := Int.fdiv t 86400

/-- Local calendar day number of an instant under UTC offset tz seconds. -/
def localDay (t tz : Int) : Int := Int.fdiv (t + tz) 86400

/-- SQL (row_timestamp < cutoff) for a CURRENT_TIMESTAMP row value and an
isoformat cutoff: decided entirely by the calendar dates. -/
def rowLtCutoff (rowT cutoff tz : Int) : Bool :=
  decide (utcDay rowT ≤ localDay cutoff tz)

/-- SQL (row_timestamp > cutoff), same pair of formats. -/
def rowGtCutoff (rowT cutoff tz : Int) : Bool :=
  decide (localDay cutoff tz < utcDay rowT)

/-- Ordering used by get_latest_weather_forecasts (ORDER BY location,
created_at DESC); SQLite sorts NULL before any string. -/
def latestOrderB (a b : ForecastRow) : Bool :=
  match a.location, b.location with
  | none, none => decide (b.created_at ≤ a.created_at)
  | none, some _ => true
  | some _, none => false
  | some x, some y =>
      if x == y then decide (b.created_at ≤ a.created_at) else decide (x < y)

/-- get_latest_weather_forecasts: WHERE created_at > (now - hours_back
hours).isoformat(), the cross-format text comparison above, ordered by
location then created_at descending. -/
def get_latest_weather_forecasts (st : DBState) (hoursBack : Int) (now tz : Int) :
    List ForecastRow :=
  List.insertionSort (fun a b => latestOrderB a b = true)
    (st.weather_forecasts.filter
      (fun r => rowGtCutoff r.created_at (now - hoursBack * 3600) tz))

/-- The WHERE clause of get_recent_earthquakes: created_at > the isoformat
cutoff (the cross-format text comparison above) and magnitude_value at
least min_magnitude (a NULL magnitude fails the SQL comparison and is
excluded). -/
def eqKeep (cutoff tz : Int) (minMag : ℚ) (r : EqRow) : Bool :=
  rowGtCutoff r.created_at cutoff tz &&
    (match r.magnitude_value with
     | some m => decide (minMag ≤ m)
     | none => false)

/-- Descending comparison on nullable TEXT timestamps: u may precede v when
v is at most u (SQLite treats NULL as smallest; DESC puts it last). -/
def optTimeGe (u v : Option String) : Bool :=
  match u, v with
  | _, none => true
  | none, some _ => false
  | some x, some y => decide (y ≤ x)

theorem optTimeGe_total (u v : Option String) :
    optTimeGe u v = true ∨ optTimeGe v u = true := by
  cases u with
  | none =>
      cases v with
      | none => left; rfl
      | some y => right; rfl
  | some x =>
      cases v with
      | none => left; rfl
      | some y =>
          rcases le_total x y with h | h
          · right; exact decide_eq_true h
          · left; exact decide_eq_true h

theorem optTimeGe_trans (u v w : Option String) (h1 : optTimeGe u v = true)
    (h2 : optTimeGe v w = true) : optTimeGe u w = true := by
  cases u with
  | none =>
      cases v with
      | none =>
          cases w with
          | none => rfl
          | some z => exact Bool.noConfusion h2
      | some y => exact Bool.noConfusion h1
  | some x =>
      cases w with
      | none => rfl
      | some z =>
          cases v with
          | none => exact Bool.noConfusion h2
          | some y =>
              exact decide_eq_true
                (le_trans (of_decide_eq_true h2) (of_decide_eq_true h1))

/-- ORDER BY origin_time DESC as a relation on rows. -/
def EqBefore (a b : EqRow) : Prop :=
  optTimeGe a.origin_time b.origin_time = true

instance : DecidableRel EqBefore := by
  intro a b
  unfold EqBefore
  infer_instance

instance : IsTotal EqRow EqBefore := by
  constructor
  intro a b
  exact optTimeGe_total a.origin_time b.origin_time

instance : IsTrans EqRow EqBefore := by
  constructor
  intro a b c hab hbc
  exact optTimeGe_trans a.origin_time b.origin_time c.origin_time hab hbc

/-- get_recent_earthquakes: filter by the created_at window (cross-format
text comparison) and minimum magnitude, order by origin_time descending. -/
def get_recent_earthquakes (st : DBState) (daysBack : Int) (minMag : ℚ)
    (now tz : Int) : List EqRow :=
  List.insertionSort EqBefore
    (st.earthquakes.filter (eqKeep (now - daysBack * 86400) tz minMag))

/-- cleanup_old_data: DELETE ... WHERE created_at/called_at < the isoformat
cutoff (now minus days_to_keep days; twice that for earthquakes) under the
cross-format text comparison above, then VACUUM (the returned flag records
that the storage-reclaim step ran). -/
def cleanup_old_data (st : DBState) (daysToKeep : Int) (now tz : Int) :
    DBState × Bool :=
  let cutoff := now - daysToKeep * 86400
  let eqCutoff := now - daysToKeep * 2 * 86400
  ({ st with
      weather_forecasts := st.weather_forecasts.filter
        (fun r => !rowLtCutoff r.created_at cutoff tz),
      api_logs := st.api_logs.filter (fun r => !rowLtCutoff r.called_at cutoff tz),
      earthquakes := st.earthquakes.filter
        (fun r => !rowLtCutoff r.created_at eqCutoff tz) },
   true)

/-- _calculate_data_age_hours: hours between now and the parsed timestamp,
or float('inf') when parsing fails. -/
def calculate_data_age_hours (lastUpdate : Option Int) (now : Int) : AgeHours :=
  match lastUpdate with
  | none => AgeHours.infty
  | some t => AgeHours.fin (((now - t : Int) : ℚ) / 3600)

/-- The freshness row for a data type (data_freshness has UNIQUE(data_type),
so at most one row matches). -/
def freshLookup (st : DBState) (dataType : String) : Option FreshRow :=
  st.data_freshness.find? (fun r => r.data_type == dataType)

/-- The age_hours field get_data_freshness_info derives for a data type,
with _get_data_age's float('inf') default for an absent entry. -/
def getDataAge (st : DBState) (dataType : String) (now : Int) : AgeHours :=
  match freshLookup st dataType with
  | none => AgeHours.infty
  | some r => calculate_data_age_hours r.last_update now

/-- _get_last_update. -/
def getLastUpdate (st : DBState) (dataType : String) : Option (Option Int) :=
  (freshLookup st dataType).map (fun r => r.last_update)

/-- _needs_data_refresh: forced, or no freshness entry, or age beyond the
type's threshold. -/
def needs_data_refresh (st : DBState) (dataType : String) (force : Bool) (now : Int) :
    Bool :=
  if force then true
  else
    match freshLookup st dataType with
    | none => true
    | some r =>
        AgeHours.gtB (calculate_data_age_hours r.last_update now)
          (refreshThreshold dataType)

/-! ### Payload parsing (src/utils/taiwan_weather_helper.py) -/

/-- One entry of a weather element's parameter list. -/
structure WParam where
  parameterName : Option String
  parameterValue : Option String
  parameterUnit : Option String
deriving DecidableEq

/-- One time period of a weather element. -/
structure WTime where
  startTime : Option String
  endTime : Option String
  parameter : List WParam
deriving DecidableEq

structure WElement where
  elementName : Option String
  time : List WTime
deriving DecidableEq

structure WLocation where
  locationName : Option String
  weatherElement : List WElement
deriving DecidableEq

structure Epicenter where
  lat : Option String
  lon : Option String
  location : Option String
deriving DecidableEq

structure EqInfo where
  originTime : Option String
  magnitudeType : Option String
  magnitudeValue : Option String
  depth : Option String
  epicenter : Option Epicenter
deriving DecidableEq

structure EqEvent where
  earthquakeNo : Option String
  reportType : Option String
  reportColor : Option String
  reportContent : Option String
  web : Option String
  earthquakeInfo : Option EqInfo
deriving DecidableEq

structure CwaDataset where
  location : List WLocation
  earthquake : List EqEvent
deriving DecidableEq

structure CwaOpen where
  dataset : Option CwaDataset
deriving DecidableEq

/-- The upstream JSON payload: each field is none when the key is absent
(dict .get calls supply defaults; a bare subscript on a missing key raises,
which the processors catch). -/
structure RawPayload where
  cwaopendata : Option CwaOpen
deriving DecidableEq

/-- Python dict assignment d[k] = v on an insertion-ordered dict: overwrite
in place if the key exists, else append. -/
def dictInsert (d : List (String × String)) (k v : String) : List (String × String) :=
  if (d.find? (fun p => p.1 == k)).isSome then
    d.map (fun p => if p.1 == k then (k, v) else p)
  else d ++ [(k, v)]

/-- Uppercase the first character of a word (str.title on an all-lowercase
word). -/
def capitalizeWord : List Char → List Char
  | [] => []
  | c :: cs => c.toUpper :: cs

/-- Python str.title on the lower-case mapping keys: capitalize each
space-separated word. -/
def pyTitle (s : String) : String :=
  String.mk (joinWith [' '] ((splitOnChar ' ' s.data).map capitalizeWord))

/-- TaiwanWeatherProcessor.location_mapping, in source order. -/
def location_mapping : List (String × List String) :=
  [("taipei", ["臺北市", "Taipei City"]),
   ("new_taipei", ["新北市", "New Taipei City"]),
   ("taoyuan", ["桃園市", "Taoyuan City"]),
   ("taichung", ["臺中市", "Taichung City"]),
   ("tainan", ["臺南市", "Tainan City"]),
   ("kaohsiung", ["高雄市", "Kaohsiung City"]),
   ("keelung", ["基隆市", "Keelung City"]),
   ("hsinchu_city", ["新竹市", "Hsinchu City"]),
   ("chiayi_city", ["嘉義市", "Chiayi City"])]

/-- TaiwanWeatherProcessor._get_english_name. -/
def get_english_name (chineseName : String) : String :=
  match location_mapping.find? (fun p => p.2.contains chineseName) with
  | some p => pyTitle (p.1.replace "_" " ")
  | none => chineseName

/-- Fold one weather element into the location's record: only the first
time period is used, and only when both the time list and its parameter
list are nonempty are the five flat columns written. -/
def elementInsert (d : List (String × String)) (el : WElement) :
    List (String × String) :=
  let ename := el.elementName.getD ""
  match el.time.head? with
  | none => d
  | some first =>
      match first.parameter.head? with
      | none => d
      | some p =>
          let d1 := dictInsert d (ename ++ "_name") (p.parameterName.getD "")
          let d2 := dictInsert d1 (ename ++ "_value") (p.parameterValue.getD "")
          let d3 := dictInsert d2 (ename ++ "_unit") (p.parameterUnit.getD "")
          let d4 := dictInsert d3 (ename ++ "_start") (first.startTime.getD "")
          dictInsert d4 (ename ++ "_end") (first.endTime.getD "")

/-- The per-location record process_weather_forecast builds. -/
def processLocation (loc : WLocation) : List (String × String) :=
  let nm := loc.locationName.getD "Unknown"
  loc.weatherElement.foldl elementInsert
    [("location", nm), ("location_en", get_english_name nm)]

/-- Key list of records, first occurrence order kept, duplicates dropped. -/
def firstDedupGo (seen : List String) : List String → List String
  | [] => []
  | x :: xs =>
      if seen.contains x then firstDedupGo seen xs
      else x :: firstDedupGo (x :: seen) xs

/-- pd.DataFrame(list of dicts): columns are the union of keys in first
appearance order; a record lacking a column gets NaN there. -/
def frameOfRecords (recs : List (List (String × String))) : PyFrame :=
  let cols := firstDedupGo [] (recs.foldl (fun acc r => acc ++ r.map Prod.fst) [])
  ⟨cols, recs.map (fun r => cols.map (fun c => (r.find? (fun p => p.1 == c)).map Prod.snd))⟩

/-- TaiwanWeatherProcessor.process_weather_forecast: a missing cwaopendata
key returns None outright; a missing dataset key raises KeyError, caught by
the surrounding except which also returns None. Otherwise one record per
location. -/
def process_weather_forecast (raw : RawPayload) : Option PyFrame :=
  match raw.cwaopendata with
  | none => none
  | some co =>
      match co.dataset with
      | none => none
      | some ds => some (frameOfRecords (ds.location.map processLocation))

/-- The flat record process_earthquake_data builds for one event (absent
earthquakeInfo and epicenter dicts default to empty). -/
def processEqEvent (e : EqEvent) : List (String × String) :=
  let info := e.earthquakeInfo.getD ⟨none, none, none, none, none⟩
  let epi := info.epicenter.getD ⟨none, none, none⟩
  [("earthquake_no", e.earthquakeNo.getD ""),
   ("report_type", e.reportType.getD ""),
   ("report_color", e.reportColor.getD ""),
   ("report_content", e.reportContent.getD ""),
   ("web_url", e.web.getD ""),
   ("origin_time", info.originTime.getD ""),
   ("magnitude_type", info.magnitudeType.getD ""),
   ("magnitude_value", info.magnitudeValue.getD ""),
   ("depth", info.depth.getD ""),
   ("epicenter_lat", epi.lat.getD ""),
   ("epicenter_lon", epi.lon.getD ""),
   ("location", epi.location.getD "")]

/-- TaiwanWeatherProcessor.process_earthquake_data, same root-key failure
behavior as the forecast processor. -/
def process_earthquake_data (raw : RawPayload) : Option PyFrame :=
  match raw.cwaopendata with
  | none => none
  | some co =>
      match co.dataset with
      | none => none
      | some ds => some (frameOfRecords (ds.earthquake.map processEqEvent))

/-! ### Data service (src/crawler/data_service.py) -/

/-- What crawler.get_dataset_data does on this call: raise an exception, or
return a value (none models a falsy result, i.e. Python None or an empty
payload). -/
inductive FetchRes where
  | raises (msg : String)
  | returns (payload : Option RawPayload)
deriving DecidableEq

/-- _fetch_and_store_weather_data: no crawler registered returns False with
no log; an exception or falsy payload logs a failed call; a parse yielding
None or an empty frame logs a failed call; otherwise the frame is saved and
a successful call is logged with the saved-record count (even when the save
transaction rolled back internally). -/
def fetch_and_store_weather_data (hasCrawler : Bool) (fetch : FetchRes)
    (dbErr : Option Nat) (rt : ℚ) (now : Int) (st : DBState) : Bool × DBState :=
  if !hasCrawler then (false, st)
  else
    match fetch with
    | FetchRes.raises msg =>
        (false, log_api_call st "F-A0010-001" "taiwan_cwa" false (some rt) (some 0)
          (some msg) now)
    | FetchRes.returns none =>
        (false, log_api_call st "F-A0010-001" "taiwan_cwa" false (some rt) (some 0)
          (some "No data returned") now)
    | FetchRes.returns (some raw) =>
        match process_weather_forecast raw with
        | none =>
            (false, log_api_call st "F-A0010-001" "taiwan_cwa" false (some rt) (some 0)
              (some "Data processing failed") now)
        | some df =>
            if df.isEmptyFrame then
              (false, log_api_call st "F-A0010-001" "taiwan_cwa" false (some rt) (some 0)
                (some "Data processing failed") now)
            else
              let out := save_weather_forecast st (some df) now dbErr
              (true, log_api_call out.2 "F-A0010-001" "taiwan_cwa" true (some rt)
                (some out.1) none now)

/-- _fetch_and_store_earthquake_data, the mirror image for E-A0015-001. -/
def fetch_and_store_earthquake_data (hasCrawler : Bool) (fetch : FetchRes)
    (dbErr : Option Nat) (rt : ℚ) (now : Int) (st : DBState) : Bool × DBState :=
  if !hasCrawler then (false, st)
  else
    match fetch with
    | FetchRes.raises msg =>
        (false, log_api_call st "E-A0015-001" "taiwan_cwa" false (some rt) (some 0)
          (some msg) now)
    | FetchRes.returns none =>
        (false, log_api_call st "E-A0015-001" "taiwan_cwa" false (some rt) (some 0)
          (some "No data returned") now)
    | FetchRes.returns (some raw) =>
        match process_earthquake_data raw with
        | none =>
            (false, log_api_call st "E-A0015-001" "taiwan_cwa" false (some rt) (some 0)
              (some "Data processing failed") now)
        | some df =>
            if df.isEmptyFrame then
              (false, log_api_call st "E-A0015-001" "taiwan_cwa" false (some rt) (some 0)
                (some "Data processing failed") now)
            else
              let out := save_earthquake_data st (some df) now dbErr
              (true, log_api_call out.2 "E-A0015-001" "taiwan_cwa" true (some rt)
                (some out.1) none now)

/-- The metadata dict of get_weather_forecast_data. -/
structure WMeta where
  record_count : Nat
  last_update : Option (Option Int)
  data_age_hours : AgeHours
  is_fresh : Bool
  source : String
deriving DecidableEq

/-- The metadata dict of get_earthquake_data (with its filters sub-dict). -/
structure EMeta where
  record_count : Nat
  last_update : Option (Option Int)
  data_age_hours : AgeHours
  is_fresh : Bool
  source : String
  days_back : Int
  min_magnitude : ℚ
deriving DecidableEq

/-- get_weather_forecast_data: decide staleness, refresh if needed (the
refresh outcome is only logged), then read back from the store and report
metadata; is_fresh is the negation of the staleness decision taken before
the refresh. -/
def get_weather_forecast_data (hasCrawler : Bool) (fetch : FetchRes)
    (dbErr : Option Nat) (rt : ℚ) (force : Bool) (now tz : Int) (st : DBState) :
    (List ForecastRow × WMeta) × DBState :=
  let needs := needs_data_refresh st "weather_forecasts" force now
  let st1 :=
    if needs then (fetch_and_store_weather_data hasCrawler fetch dbErr rt now st).2
    else st
  let df := get_latest_weather_forecasts st1 24 now tz
  ((df, ⟨df.length, getLastUpdate st1 "weather_forecasts",
    getDataAge st1 "weather_forecasts" now, !needs, "Taiwan CWA API"⟩), st1)

/-- get_earthquake_data, same shape with the query filters. -/
def get_earthquake_data (hasCrawler : Bool) (fetch : FetchRes)
    (dbErr : Option Nat) (rt : ℚ) (force : Bool) (daysBack : Int) (minMag : ℚ)
    (now tz : Int) (st : DBState) : (List EqRow × EMeta) × DBState :=
  let needs := needs_data_refresh st "earthquakes" force now
  let st1 :=
    if needs then (fetch_and_store_earthquake_data hasCrawler fetch dbErr rt now st).2
    else st
  let df := get_recent_earthquakes st1 daysBack minMag now tz
  ((df, ⟨df.length, getLastUpdate st1 "earthquakes",
    getDataAge st1 "earthquakes" now, !needs, "Taiwan CWA API", daysBack, minMag⟩), st1)

/-! ### Theorems -/

/-- C7: for every non-empty table, the quality score equals 100 minus 0.5 x
missing-value percentage, minus 0.3 x duplicate-row percentage, minus 0.2 x
constant-column percentage, clamped to [0,100]. -/
theorem quality_score_matches_spec (t : PyTable) (h : t.isEmptyTable = false) :
    get_data_quality_score t = qualityScoreSpec t := by
  simp only [get_data_quality_score, qualityScoreSpec, h, Bool.false_eq_true, if_false]
  congr 1
  congr 1
  ring

def c7table : PyTable :=
  ⟨2, [[some "a", none], [some "a", none], [some "b", some "c"]]⟩

theorem quality_score_matches_spec_witness :
    c7table.isEmptyTable = false ∧ get_data_quality_score c7table = qualityScoreSpec c7table :=
  ⟨by decide, quality_score_matches_spec c7table (by decide)⟩

/-- C5 counterexample: after exhausting its retries the fetcher returns the
same bare None for distinct failure causes, while the spec's FetchError
model distinguishes them, so the code's failure value cannot carry the
cause. -/
theorem make_request_drops_cause :
    make_request (some 1) allTimeout = make_request (some 1) allRefused ∧
    (make_request (some 1) allTimeout).2 = none ∧
    fetchSpecModel (some 1) allTimeout ≠ fetchSpecModel (some 1) allRefused := by
  refine ⟨by decide, by decide, ?_⟩
  intro hcontra
  have h2 := congrArg Prod.snd hcontra
  rw [show (fetchSpecModel (some 1) allTimeout).2 = Except.error "timeout" from rfl,
      show (fetchSpecModel (some 1) allRefused).2 =
        Except.error "connection refused" from rfl] at h2
  exact absurd h2 (by simp)

/-- C5 (amended): the fetcher sleeps the configured delay (default 1.0s)
before the first attempt of every call regardless of outcome, makes up to
MAX_RETRIES = 3 attempts with 2^attempt seconds of backoff between failed
attempts, and after the last failure returns None (the cause is only
logged, not returned). -/
theorem make_request_retry_schedule (rateLimit : Option ℚ) (attempts : Nat → Attempt) :
    (make_request rateLimit attempts).1.head? = some (rateLimit.getD REQUEST_DELAY) ∧
    ((∀ i, i < MAX_RETRIES → ∃ c, attempts i = Attempt.err c) →
      make_request rateLimit attempts = ([rateLimit.getD REQUEST_DELAY, 1, 2], none)) ∧
    (∀ i r, i < MAX_RETRIES → attempts i = Attempt.ok r →
      (∀ j, j < i → ∃ c, attempts j = Attempt.err c) →
      make_request rateLimit attempts =
        (rateLimit.getD REQUEST_DELAY :: (List.range i).map (fun j => (2 : ℚ) ^ j),
          some r)) := by
  refine ⟨rfl, ?_, ?_⟩
  · intro h
    obtain ⟨c0, h0⟩ := h 0 (by decide)
    obtain ⟨c1, h1⟩ := h 1 (by decide)
    obtain ⟨c2, h2⟩ := h 2 (by decide)
    simp [make_request, requestLoop, MAX_RETRIES, h0, h1, h2]
  · intro i r hi hok hearlier
    have hi3 : i < 3 := hi
    interval_cases i
    · simp [make_request, requestLoop, MAX_RETRIES, hok]
    · obtain ⟨c0, h0⟩ := hearlier 0 (by decide)
      simp [make_request, requestLoop, MAX_RETRIES, h0, hok, List.range_succ]
    · obtain ⟨c0, h0⟩ := hearlier 0 (by decide)
      obtain ⟨c1, h1⟩ := hearlier 1 (by decide)
      simp [make_request, requestLoop, MAX_RETRIES, h0, h1, hok, List.range_succ]

theorem make_request_retry_schedule_witness :
    make_request none allTimeout = ([1, 1, 2], none) := by
  have h := (make_request_retry_schedule none allTimeout).2.1
    (fun i _ => ⟨"timeout", rfl⟩)
  simpa using h

/-- C2 counterexample: at a 90 percent success rate (nothing else degraded)
the code leaves the score at 100 while the claim's formula yields 95; the
code applies the success-rate term only below 80 percent. -/
theorem health_score_not_unconditional :
    calculate_health_score [] ⟨some 90, some 0⟩ ≠ healthScoreClaim [] ⟨some 90, some 0⟩ := by
  simp only [calculate_health_score, healthScoreClaim, List.filter_nil, List.foldl_nil,
    List.length_nil, Option.getD_some]
  norm_num [min_def, max_def]

/-- Folding the per-type age deductions equals subtracting 20 per type past
twice its threshold and 10 per type past once (but not twice) its
threshold. -/
theorem ageDeduction_fold (f : List (String × AgeHours)) (a : ℚ) :
    f.foldl (fun acc p => acc - ageDeduction (refreshThreshold p.1) p.2) a =
      a - 20 * ((f.filter
            (fun p => AgeHours.gtB p.2 (refreshThreshold p.1 * 2))).length : ℚ)
        - 10 * ((f.filter
            (fun p => AgeHours.gtB p.2 (refreshThreshold p.1)
              && !AgeHours.gtB p.2 (refreshThreshold p.1 * 2))).length : ℚ) := by
  induction f generalizing a with
  | nil => simp
  | cons p l ih =>
      simp only [List.foldl_cons, List.filter_cons, ih]
      by_cases h2 : AgeHours.gtB p.2 (refreshThreshold p.1 * 2) = true
      · simp only [h2, Bool.not_true, Bool.and_false, if_true, if_false,
          List.length_cons, ageDeduction]
        push_cast
        ring
      · by_cases h1 : AgeHours.gtB p.2 (refreshThreshold p.1) = true
        · simp only [h2, h1, Bool.not_false, Bool.and_true, if_true, if_false,
            Bool.false_eq_true, List.length_cons, ageDeduction]
          push_cast
          ring
        · simp only [h2, h1, Bool.false_and, if_false, Bool.false_eq_true,
            ageDeduction]
          ring

/-- C2 (amended): the health score equals 100 minus 20 per data type past
twice its threshold and 10 per type past once (not twice) its threshold,
minus (100 - successRate)/2 only when the 24h success rate is below 80,
minus min(20, (size - 100)/10) when the database exceeds 100 MB, clamped to
[0, 100]. -/
theorem health_score_matches_amended (f : List (String × AgeHours)) (s : DbStats) :
    calculate_health_score f s = healthScoreAmended f s := by
  simp only [calculate_health_score, healthScoreAmended]
  rw [ageDeduction_fold]
  by_cases hr : (s.api_success_rate.getD 100) < 80 <;>
    by_cases hs : (s.db_size_mb.getD 0) > 100 <;>
      simp only [hr, hs, if_true, if_false] <;> (congr 1; congr 1; ring)

/-- A forecast row created at instant 50000 (UTC day 0, 13:53:20). -/
def c6row : ForecastRow :=
  ⟨some "Taipei", 0, none, none, none, none, none, none,
   some "2024-06-01T06:00:00", some "2024-06-01T18:00:00", [], 50000⟩

/-- C6 counterexample: with days_to_keep = 30 and now at noon of day 30
(zero UTC offset), the row of c6row is younger than 30 days (its age is
2585200 s < 2592000 s), yet cleanup deletes it: its UTC calendar date
equals the cutoff's calendar date, and the space-format created_at string
always memcmps below the 'T'-separator isoformat cutoff on that day. -/
theorem cleanup_deletes_young_forecast :
    (cleanup_old_data ⟨[c6row], [], [], []⟩ 30 2635200 0).1.weather_forecasts = [] ∧
    2635200 - c6row.created_at < 30 * 86400 := by
  refine ⟨by decide, by decide⟩

/-- C6 (amended): cleanup keeps exactly the forecast and API-log rows
whose UTC calendar date lies strictly after the local calendar date of the
cutoff now minus days, keeps exactly the earthquake rows whose date lies
strictly after that of now minus twice days, touches nothing else, and
then runs the storage reclaim (VACUUM). Deletion is by calendar day, not
by instant: rows on the cutoff's own calendar day are removed even when
younger than the retention period. -/
theorem cleanup_retention (st : DBState) (d now tz : Int) :
    (∀ r : ForecastRow, r ∈ (cleanup_old_data st d now tz).1.weather_forecasts ↔
        r ∈ st.weather_forecasts ∧
          localDay (now - d * 86400) tz < utcDay r.created_at) ∧
    (∀ r : LogRow, r ∈ (cleanup_old_data st d now tz).1.api_logs ↔
        r ∈ st.api_logs ∧ localDay (now - d * 86400) tz < utcDay r.called_at) ∧
    (∀ r : EqRow, r ∈ (cleanup_old_data st d now tz).1.earthquakes ↔
        r ∈ st.earthquakes ∧
          localDay (now - d * 2 * 86400) tz < utcDay r.created_at) ∧
    (cleanup_old_data st d now tz).1.data_freshness = st.data_freshness ∧
    (cleanup_old_data st d now tz).2 = true := by
  refine ⟨?_, ?_, ?_, rfl, rfl⟩ <;> intro r <;>
    simp [cleanup_old_data, List.mem_filter, rowLtCutoff, not_le]

theorem cleanup_retention_witness :
    (cleanup_old_data dbEmpty 30 0 0).2 = true :=
  (cleanup_retention dbEmpty 30 0 0).2.2.2.2

/-- An earthquake row created at instant 50000 (UTC day 0, 13:53:20). -/
def c8row : EqRow :=
  ⟨some "2024001", some "2024-01-01T13:00:00", some 5, some "ML", some 10,
   some "Hualien", none, none, some "", some "", some "", [], 50000⟩

/-- C8 counterexample: with days_back = 7 and now at noon of day 7 (zero
UTC offset), the row of c8row lies strictly inside the 7-day window (age
598000 s < 604800 s) and its magnitude 5 passes the minimum 0, yet the
query returns nothing: the row's UTC calendar date equals the cutoff's
calendar date, so its space-format created_at memcmps below the
'T'-separator isoformat cutoff. -/
theorem earthquake_query_misses_window_row :
    get_recent_earthquakes ⟨[], [c8row], [], []⟩ 7 0 648000 0 = [] ∧
    648000 - c8row.created_at < 7 * 86400 ∧
    c8row.magnitude_value = some 5 := by
  refine ⟨by decide, by decide, by decide⟩

/-- C8 (amended): the earthquake query returns exactly the stored rows
whose magnitude is at least the minimum (a NULL magnitude never qualifies)
and whose UTC calendar insertion date lies strictly after the local
calendar date of the cutoff now minus days_back, ordered by origin time
descending; rows inserted inside the window but on the cutoff's own
calendar day are excluded by the cross-format text comparison. -/
theorem recent_earthquakes_query (st : DBState) (daysBack : Int) (minMag : ℚ)
    (now tz : Int) :
    (get_recent_earthquakes st daysBack minMag now tz).Perm
        (st.earthquakes.filter (eqKeep (now - daysBack * 86400) tz minMag)) ∧
    List.Sorted EqBefore (get_recent_earthquakes st daysBack minMag now tz) ∧
    (∀ r : EqRow, r ∈ get_recent_earthquakes st daysBack minMag now tz ↔
      r ∈ st.earthquakes ∧
        localDay (now - daysBack * 86400) tz < utcDay r.created_at ∧
        ∃ m, r.magnitude_value = some m ∧ minMag ≤ m) := by
  refine ⟨List.perm_insertionSort _ _, List.sorted_insertionSort _ _, ?_⟩
  intro r
  rw [get_recent_earthquakes, List.mem_insertionSort, List.mem_filter]
  simp only [eqKeep, rowGtCutoff, Bool.and_eq_true, decide_eq_true_eq]
  constructor
  · rintro ⟨hmem, hc, hmag⟩
    refine ⟨hmem, hc, ?_⟩
    cases hm : r.magnitude_value with
    | none => rw [hm] at hmag; exact Bool.noConfusion hmag
    | some m => rw [hm] at hmag; exact ⟨m, rfl, of_decide_eq_true hmag⟩
  · rintro ⟨hmem, hc, m, hm, hle⟩
    refine ⟨hmem, hc, ?_⟩
    rw [hm]
    exact decide_eq_true hle

theorem recent_earthquakes_query_witness :
    List.Sorted EqBefore (get_recent_earthquakes dbEmpty 7 0 0 0) :=
  (recent_earthquakes_query dbEmpty 7 0 0 0).2.1

/-- C9: a None or empty DataFrame makes both save operations return 0 and
leave every table, the freshness tracking and the call log untouched. -/
theorem save_empty_input_noop (st : DBState) (now : Int) (dbErr : Option Nat)
    (df : PyFrame) (h : df.isEmptyFrame = true) :
    save_weather_forecast st none now dbErr = (0, st) ∧
    save_earthquake_data st none now dbErr = (0, st) ∧
    save_weather_forecast st (some df) now dbErr = (0, st) ∧
    save_earthquake_data st (some df) now dbErr = (0, st) := by
  refine ⟨rfl, rfl, ?_, ?_⟩ <;>
    simp [save_weather_forecast, save_earthquake_data, h]

theorem save_empty_input_noop_witness :
    (PyFrame.mk ["location"] []).isEmptyFrame = true ∧
    save_weather_forecast dbEmpty (some (PyFrame.mk ["location"] [])) 0 none =
      (0, dbEmpty) :=
  ⟨by decide,
    (save_empty_input_noop dbEmpty 0 none (PyFrame.mk ["location"] []) (by decide)).2.2.1⟩

/-- C10: an absent freshness entry, or one whose stored timestamp does not
parse, makes the derived age infinite and the staleness check true even
without force_refresh, so the first read of a data type takes the refresh
branch. -/
theorem first_read_triggers_refresh (st : DBState) (ty : String) (now : Int)
    (r : FreshRow)
    (h : freshLookup st ty = none ∨ (freshLookup st ty = some r ∧ r.last_update = none)) :
    getDataAge st ty now = AgeHours.infty ∧
    needs_data_refresh st ty false now = true := by
  rcases h with h | ⟨h, hr⟩
  · simp [getDataAge, needs_data_refresh, h]
  · simp [getDataAge, needs_data_refresh, h, hr, calculate_data_age_hours, AgeHours.gtB]

theorem first_read_triggers_refresh_witness :
    getDataAge dbEmpty "weather_forecasts" 0 = AgeHours.infty ∧
    needs_data_refresh dbEmpty "weather_forecasts" false 0 = true :=
  first_read_triggers_refresh dbEmpty "weather_forecasts" 0
    ⟨"weather_forecasts", none, 0, none⟩ (Or.inl rfl)

/-- C4: a payload without the cwaopendata root key, or without the nested
dataset key, makes both processors fail without raising (returning no
records), and the refresh cycle then logs a failed call and writes nothing
to any table. -/
theorem missing_root_key_parse_failure (raw : RawPayload)
    (h : raw.cwaopendata = none ∨ ∃ co, raw.cwaopendata = some co ∧ co.dataset = none) :
    process_weather_forecast raw = none ∧ process_earthquake_data raw = none ∧
    ∀ (st : DBState) (dbErr : Option Nat) (rt : ℚ) (now : Int),
      fetch_and_store_weather_data true (FetchRes.returns (some raw)) dbErr rt now st =
        (false, log_api_call st "F-A0010-001" "taiwan_cwa" false (some rt) (some 0)
          (some "Data processing failed") now) ∧
      fetch_and_store_earthquake_data true (FetchRes.returns (some raw)) dbErr rt now st =
        (false, log_api_call st "E-A0015-001" "taiwan_cwa" false (some rt) (some 0)
          (some "Data processing failed") now) := by
  have hwp : process_weather_forecast raw = none := by
    rcases h with h1 | ⟨co, h1, hd⟩
    · simp [process_weather_forecast, h1]
    · simp [process_weather_forecast, h1, hd]
  have hep : process_earthquake_data raw = none := by
    rcases h with h1 | ⟨co, h1, hd⟩
    · simp [process_earthquake_data, h1]
    · simp [process_earthquake_data, h1, hd]
  refine ⟨hwp, hep, ?_⟩
  intro st dbErr rt now
  constructor
  · simp [fetch_and_store_weather_data, hwp]
  · simp [fetch_and_store_earthquake_data, hep]

theorem missing_root_key_parse_failure_witness :
    process_weather_forecast ⟨none⟩ = none ∧ process_earthquake_data ⟨none⟩ = none :=
  ⟨(missing_root_key_parse_failure ⟨none⟩ (Or.inl rfl)).1,
   (missing_root_key_parse_failure ⟨none⟩ (Or.inl rfl)).2.1⟩

/-- A one-record forecast frame: one location with a forecast period. -/
def c1frame : PyFrame :=
  ⟨["location", "Wx_start", "Wx_end"],
   [[some "Taipei", some "2024-06-01T06:00:00", some "2024-06-01T18:00:00"]]⟩

/-- C1: saving the identical forecast record twice, at save instants 100
and 200, leaves two stored rows with the same location and period start:
the schema's unique key (location, forecast_time, start_time) includes the
wall-clock save timestamp written into forecast_time, so the claimed
replacement on (location, period_start) never happens across saves; only a
re-save at the very same instant collapses to one row. -/
theorem forecast_upsert_duplicates_rows :
    ((save_weather_forecast (save_weather_forecast dbEmpty (some c1frame) 100 none).2
        (some c1frame) 200 none).2).weather_forecasts.map
          (fun r => (r.location, r.start_time)) =
      [(some "Taipei", some "2024-06-01T06:00:00"),
       (some "Taipei", some "2024-06-01T06:00:00")] ∧
    ((save_weather_forecast (save_weather_forecast dbEmpty (some c1frame) 100 none).2
        (some c1frame) 200 none).2).weather_forecasts.length = 2 ∧
    ((save_weather_forecast (save_weather_forecast dbEmpty (some c1frame) 100 none).2
        (some c1frame) 100 none).2).weather_forecasts.length = 1 := by
  refine ⟨by decide, by decide, by decide⟩

/-- The freshness row just written is what a lookup for its type finds. -/
theorem findUpdated (ty : String) (row : FreshRow) (hty : row.data_type = ty) :
    ∀ l : List FreshRow,
      ((l.filter (fun r => r.data_type != ty)) ++ [row]).find?
        (fun r => r.data_type == ty) = some row := by
  intro l
  induction l with
  | nil => simp [List.find?_cons, hty]
  | cons a l ih =>
      by_cases ha : a.data_type = ty
      · have hne : (a.data_type != ty) = false := by simp [ha]
        simp [List.filter_cons, hne, ih]
      · have hne : (a.data_type != ty) = true := by simp [ha]
        have hne2 : (a.data_type == ty) = false := by simp [ha]
        simp [List.filter_cons, hne, List.find?_cons, hne2, ih]

theorem freshLookup_update (st : DBState) (ty : String) (n : Nat) (now : Int) :
    freshLookup (update_data_freshness st ty n now) ty =
      some ⟨ty, some now, n, none⟩ := by
  unfold freshLookup update_data_freshness
  exact findUpdated ty ⟨ty, some now, n, none⟩ rfl st.data_freshness

/-- The refresh cycle for weather data fails at the fetch or parse stage. -/
def weatherRefreshFails (fetch : FetchRes) : Prop :=
  (∃ msg, fetch = FetchRes.raises msg) ∨ fetch = FetchRes.returns none ∨
    ∃ raw, fetch = FetchRes.returns (some raw) ∧
      (process_weather_forecast raw = none ∨
        ∃ df, process_weather_forecast raw = some df ∧ df.isEmptyFrame = true)

/-- The refresh cycle for earthquake data fails at the fetch or parse
stage. -/
def eqRefreshFails (fetch : FetchRes) : Prop :=
  (∃ msg, fetch = FetchRes.raises msg) ∨ fetch = FetchRes.returns none ∨
    ∃ raw, fetch = FetchRes.returns (some raw) ∧
      (process_earthquake_data raw = none ∨
        ∃ df, process_earthquake_data raw = some df ∧ df.isEmptyFrame = true)

/-- What a failed weather refresh leaves behind: tables and freshness
untouched, one failed-call log entry appended, stale data served with
is_fresh false. -/
def weatherFailBehavior (fetch : FetchRes) (dbErr : Option Nat) (rt : ℚ)
    (force : Bool) (now tz : Int) (st : DBState) : Prop :=
  (get_weather_forecast_data true fetch dbErr rt force now tz st).2.weather_forecasts
      = st.weather_forecasts ∧
  (get_weather_forecast_data true fetch dbErr rt force now tz st).2.earthquakes
      = st.earthquakes ∧
  (get_weather_forecast_data true fetch dbErr rt force now tz st).2.data_freshness
      = st.data_freshness ∧
  (∃ msg, (get_weather_forecast_data true fetch dbErr rt force now tz st).2.api_logs
      = st.api_logs ++
        [⟨"F-A0010-001", "taiwan_cwa", false, some rt, some 0, some msg, now⟩]) ∧
  (get_weather_forecast_data true fetch dbErr rt force now tz st).1.2.is_fresh = false ∧
  (get_weather_forecast_data true fetch dbErr rt force now tz st).1.1
      = get_latest_weather_forecasts st 24 now tz

/-- What a failed earthquake refresh leaves behind. -/
def eqFailBehavior (fetch : FetchRes) (dbErr : Option Nat) (rt : ℚ) (force : Bool)
    (daysBack : Int) (minMag : ℚ) (now tz : Int) (st : DBState) : Prop :=
  (get_earthquake_data true fetch dbErr rt force daysBack minMag now tz st).2.weather_forecasts
      = st.weather_forecasts ∧
  (get_earthquake_data true fetch dbErr rt force daysBack minMag now tz st).2.earthquakes
      = st.earthquakes ∧
  (get_earthquake_data true fetch dbErr rt force daysBack minMag now tz st).2.data_freshness
      = st.data_freshness ∧
  (∃ msg, (get_earthquake_data true fetch dbErr rt force daysBack minMag now tz st).2.api_logs
      = st.api_logs ++
        [⟨"E-A0015-001", "taiwan_cwa", false, some rt, some 0, some msg, now⟩]) ∧
  (get_earthquake_data true fetch dbErr rt force daysBack minMag now tz st).1.2.is_fresh
      = false ∧
  (get_earthquake_data true fetch dbErr rt force daysBack minMag now tz st).1.1
      = get_recent_earthquakes st daysBack minMag now tz

/-- What a weather refresh whose save transaction raises leaves behind:
no exception reaches the caller, the write is rolled back (tables and
freshness untouched), stale data is served with is_fresh false — but the
call is logged as successful, with the counter value the save returned. -/
def weatherStoreFailBehavior (fetch : FetchRes) (dbErr : Option Nat) (rt : ℚ)
    (force : Bool) (now tz : Int) (st : DBState) (n : Nat) : Prop :=
  (get_weather_forecast_data true fetch dbErr rt force now tz st).2.weather_forecasts
      = st.weather_forecasts ∧
  (get_weather_forecast_data true fetch dbErr rt force now tz st).2.earthquakes
      = st.earthquakes ∧
  (get_weather_forecast_data true fetch dbErr rt force now tz st).2.data_freshness
      = st.data_freshness ∧
  (get_weather_forecast_data true fetch dbErr rt force now tz st).2.api_logs
      = st.api_logs ++
        [⟨"F-A0010-001", "taiwan_cwa", true, some rt, some n, none, now⟩] ∧
  (get_weather_forecast_data true fetch dbErr rt force now tz st).1.2.is_fresh = false ∧
  (get_weather_forecast_data true fetch dbErr rt force now tz st).1.1
      = get_latest_weather_forecasts st 24 now tz

/-- The earthquake mirror of weatherStoreFailBehavior. -/
def eqStoreFailBehavior (fetch : FetchRes) (dbErr : Option Nat) (rt : ℚ)
    (force : Bool) (daysBack : Int) (minMag : ℚ) (now tz : Int) (st : DBState)
    (n : Nat) : Prop :=
  (get_earthquake_data true fetch dbErr rt force daysBack minMag now tz st).2.weather_forecasts
      = st.weather_forecasts ∧
  (get_earthquake_data true fetch dbErr rt force daysBack minMag now tz st).2.earthquakes
      = st.earthquakes ∧
  (get_earthquake_data true fetch dbErr rt force daysBack minMag now tz st).2.data_freshness
      = st.data_freshness ∧
  (get_earthquake_data true fetch dbErr rt force daysBack minMag now tz st).2.api_logs
      = st.api_logs ++
        [⟨"E-A0015-001", "taiwan_cwa", true, some rt, some n, none, now⟩] ∧
  (get_earthquake_data true fetch dbErr rt force daysBack minMag now tz st).1.2.is_fresh
      = false ∧
  (get_earthquake_data true fetch dbErr rt force daysBack minMag now tz st).1.1
      = get_recent_earthquakes st daysBack minMag now tz

theorem fetch_store_weather_fail (fetch : FetchRes) (dbErr : Option Nat) (rt : ℚ)
    (now : Int) (st : DBState) (h : weatherRefreshFails fetch) :
    ∃ msg, fetch_and_store_weather_data true fetch dbErr rt now st =
      (false, log_api_call st "F-A0010-001" "taiwan_cwa" false (some rt) (some 0)
        (some msg) now) := by
  rcases h with ⟨msg, hf⟩ | hf | ⟨raw, hf, hp⟩
  · subst hf; exact ⟨msg, by simp [fetch_and_store_weather_data]⟩
  · subst hf; exact ⟨"No data returned", by simp [fetch_and_store_weather_data]⟩
  · subst hf
    rcases hp with hp | ⟨df, hp, hde⟩
    · exact ⟨"Data processing failed", by simp [fetch_and_store_weather_data, hp]⟩
    · exact ⟨"Data processing failed", by simp [fetch_and_store_weather_data, hp, hde]⟩

theorem fetch_store_eq_fail (fetch : FetchRes) (dbErr : Option Nat) (rt : ℚ)
    (now : Int) (st : DBState) (h : eqRefreshFails fetch) :
    ∃ msg, fetch_and_store_earthquake_data true fetch dbErr rt now st =
      (false, log_api_call st "E-A0015-001" "taiwan_cwa" false (some rt) (some 0)
        (some msg) now) := by
  rcases h with ⟨msg, hf⟩ | hf | ⟨raw, hf, hp⟩
  · subst hf; exact ⟨msg, by simp [fetch_and_store_earthquake_data]⟩
  · subst hf; exact ⟨"No data returned", by simp [fetch_and_store_earthquake_data]⟩
  · subst hf
    rcases hp with hp | ⟨df, hp, hde⟩
    · exact ⟨"Data processing failed", by simp [fetch_and_store_earthquake_data, hp]⟩
    · exact ⟨"Data processing failed",
        by simp [fetch_and_store_earthquake_data, hp, hde]⟩

/-- C3 (amended): whenever a refresh of a data type is due, a fetch- or
parse-stage failure of that type's read propagates no exception: the
failure is logged, every table and the freshness tracking are untouched,
and the stale data is served with is_fresh false. A store-stage failure
(the save transaction raises, at any row) likewise propagates no exception
and rolls the write back leaving prior records intact, but is logged as a
successful call. After a refresh whose save transaction succeeds, the
freshness entry holds the refresh instant, and any read within the type's
threshold reports is_fresh true. Each clause assumes staleness only of the
data type it reads. -/
theorem refresh_failure_served_stale (wfetch efetch : FetchRes) (dbErr : Option Nat)
    (rt : ℚ) (force : Bool) (now tz : Int) (st : DBState) :
    (needs_data_refresh st "weather_forecasts" force now = true →
      weatherRefreshFails wfetch →
      weatherFailBehavior wfetch dbErr rt force now tz st) ∧
    (needs_data_refresh st "earthquakes" force now = true →
      ∀ (daysBack : Int) (minMag : ℚ), eqRefreshFails efetch →
        eqFailBehavior efetch dbErr rt force daysBack minMag now tz st) ∧
    (needs_data_refresh st "weather_forecasts" force now = true →
      ∀ raw df n,
        wfetch = FetchRes.returns (some raw) →
        process_weather_forecast raw = some df →
        df.isEmptyFrame = false →
        saveForecastLoop now df.cols dbErr df.rows 0 st.weather_forecasts
            = Except.error n →
        weatherStoreFailBehavior wfetch dbErr rt force now tz st n) ∧
    (needs_data_refresh st "earthquakes" force now = true →
      ∀ raw df n (daysBack : Int) (minMag : ℚ),
        efetch = FetchRes.returns (some raw) →
        process_earthquake_data raw = some df →
        df.isEmptyFrame = false →
        saveEqLoop now df.cols dbErr df.rows 0 st.earthquakes = Except.error n →
        eqStoreFailBehavior efetch dbErr rt force daysBack minMag now tz st n) ∧
    (needs_data_refresh st "weather_forecasts" force now = true →
      ∀ raw df n tbl,
        wfetch = FetchRes.returns (some raw) →
        process_weather_forecast raw = some df →
        df.isEmptyFrame = false →
        saveForecastLoop now df.cols dbErr df.rows 0 st.weather_forecasts
            = Except.ok (n, tbl) →
        freshLookup (get_weather_forecast_data true wfetch dbErr rt force now tz st).2
            "weather_forecasts" = some ⟨"weather_forecasts", some now, n, none⟩ ∧
        ∀ now2 : Int, ((now2 - now : Int) : ℚ) / 3600 ≤ 3 →
          needs_data_refresh
              (get_weather_forecast_data true wfetch dbErr rt force now tz st).2
              "weather_forecasts" false now2 = false ∧
          ∀ (hc : Bool) (f2 : FetchRes) (e2 : Option Nat) (rt2 : ℚ) (tz2 : Int),
            (get_weather_forecast_data hc f2 e2 rt2 false now2 tz2
                (get_weather_forecast_data true wfetch dbErr rt force now tz st).2).1.2.is_fresh
              = true) ∧
    (needs_data_refresh st "earthquakes" force now = true →
      ∀ raw df n tbl,
        efetch = FetchRes.returns (some raw) →
        process_earthquake_data raw = some df →
        df.isEmptyFrame = false →
        saveEqLoop now df.cols dbErr df.rows 0 st.earthquakes = Except.ok (n, tbl) →
        ∀ (daysBack : Int) (minMag : ℚ),
        freshLookup
            (get_earthquake_data true efetch dbErr rt force daysBack minMag now tz st).2
            "earthquakes" = some ⟨"earthquakes", some now, n, none⟩ ∧
        ∀ now2 : Int, ((now2 - now : Int) : ℚ) / 3600 ≤ 1 →
          needs_data_refresh
              (get_earthquake_data true efetch dbErr rt force daysBack minMag now tz st).2
              "earthquakes" false now2 = false ∧
          ∀ (hc : Bool) (f2 : FetchRes) (e2 : Option Nat) (rt2 : ℚ)
              (d2 : Int) (m2 : ℚ) (tz2 : Int),
            (get_earthquake_data hc f2 e2 rt2 false d2 m2 now2 tz2
                (get_earthquake_data true efetch dbErr rt force daysBack minMag now tz st).2).1.2.is_fresh
              = true) := by
  refine ⟨?_, ?_, ?_, ?_, ?_, ?_⟩
  · intro hw hfail
    obtain ⟨msg, hfs⟩ := fetch_store_weather_fail wfetch dbErr rt now st hfail
    refine ⟨?_, ?_, ?_, ⟨msg, ?_⟩, ?_, ?_⟩ <;>
      simp [get_weather_forecast_data, hw, hfs, log_api_call,
        get_latest_weather_forecasts]
  · intro he daysBack minMag hfail
    obtain ⟨msg, hfs⟩ := fetch_store_eq_fail efetch dbErr rt now st hfail
    refine ⟨?_, ?_, ?_, ⟨msg, ?_⟩, ?_, ?_⟩ <;>
      simp [get_earthquake_data, he, hfs, log_api_call, get_recent_earthquakes]
  · intro hw raw df n hfm hp hne hsave
    have hstore : fetch_and_store_weather_data true wfetch dbErr rt now st =
        (true, log_api_call st "F-A0010-001" "taiwan_cwa" true (some rt)
          (some n) none now) := by
      subst hfm
      simp [fetch_and_store_weather_data, hp, hne, save_weather_forecast, hsave]
    refine ⟨?_, ?_, ?_, ?_, ?_, ?_⟩ <;>
      simp [get_weather_forecast_data, hw, hstore, log_api_call,
        get_latest_weather_forecasts]
  · intro he raw df n daysBack minMag hfm hp hne hsave
    have hstore : fetch_and_store_earthquake_data true efetch dbErr rt now st =
        (true, log_api_call st "E-A0015-001" "taiwan_cwa" true (some rt)
          (some n) none now) := by
      subst hfm
      simp [fetch_and_store_earthquake_data, hp, hne, save_earthquake_data, hsave]
    refine ⟨?_, ?_, ?_, ?_, ?_, ?_⟩ <;>
      simp [get_earthquake_data, he, hstore, log_api_call, get_recent_earthquakes]
  · intro hw raw df n tbl hfm hp hne hsave
    have hstore : fetch_and_store_weather_data true wfetch dbErr rt now st =
        (true, log_api_call (update_data_freshness { st with weather_forecasts := tbl }
          "weather_forecasts" n now) "F-A0010-001" "taiwan_cwa" true (some rt)
          (some n) none now) := by
      subst hfm
      simp [fetch_and_store_weather_data, hp, hne, save_weather_forecast, hsave]
    have hst2 : (get_weather_forecast_data true wfetch dbErr rt force now tz st).2 =
        log_api_call (update_data_freshness { st with weather_forecasts := tbl }
          "weather_forecasts" n now) "F-A0010-001" "taiwan_cwa" true (some rt)
          (some n) none now := by
      simp [get_weather_forecast_data, hw, hstore]
    have hfresh : freshLookup
        (get_weather_forecast_data true wfetch dbErr rt force now tz st).2
        "weather_forecasts" = some ⟨"weather_forecasts", some now, n, none⟩ := by
      rw [hst2]
      exact freshLookup_update { st with weather_forecasts := tbl }
        "weather_forecasts" n now
    refine ⟨hfresh, ?_⟩
    intro now2 hle
    have hneeds2 : needs_data_refresh
        (get_weather_forecast_data true wfetch dbErr rt force now tz st).2
        "weather_forecasts" false now2 = false := by
      simp [needs_data_refresh, hfresh, calculate_data_age_hours, refreshThreshold,
        AgeHours.gtB]
      push_cast at hle
      exact hle
    refine ⟨hneeds2, ?_⟩
    intro hc f2 e2 rt2 tz2
    set S := (get_weather_forecast_data true wfetch dbErr rt force now tz st).2 with hS
    simp [get_weather_forecast_data, hneeds2]
  · intro he raw df n tbl hfm hp hne hsave daysBack minMag
    have hstore : fetch_and_store_earthquake_data true efetch dbErr rt now st =
        (true, log_api_call (update_data_freshness { st with earthquakes := tbl }
          "earthquakes" n now) "E-A0015-001" "taiwan_cwa" true (some rt)
          (some n) none now) := by
      subst hfm
      simp [fetch_and_store_earthquake_data, hp, hne, save_earthquake_data, hsave]
    have hst2 : (get_earthquake_data true efetch dbErr rt force daysBack minMag now tz st).2 =
        log_api_call (update_data_freshness { st with earthquakes := tbl }
          "earthquakes" n now) "E-A0015-001" "taiwan_cwa" true (some rt)
          (some n) none now := by
      simp [get_earthquake_data, he, hstore]
    have hfresh : freshLookup
        (get_earthquake_data true efetch dbErr rt force daysBack minMag now tz st).2
        "earthquakes" = some ⟨"earthquakes", some now, n, none⟩ := by
      rw [hst2]
      exact freshLookup_update { st with earthquakes := tbl } "earthquakes" n now
    refine ⟨hfresh, ?_⟩
    intro now2 hle
    have hneeds2 : needs_data_refresh
        (get_earthquake_data true efetch dbErr rt force daysBack minMag now tz st).2
        "earthquakes" false now2 = false := by
      simp [needs_data_refresh, hfresh, calculate_data_age_hours, refreshThreshold,
        AgeHours.gtB]
      push_cast at hle
      exact hle
    refine ⟨hneeds2, ?_⟩
    intro hc f2 e2 rt2 d2 m2 tz2
    set S := (get_earthquake_data true efetch dbErr rt force daysBack minMag now tz st).2
      with hS
    simp [get_earthquake_data, hneeds2]

theorem refresh_failure_served_stale_witness :
    weatherFailBehavior (FetchRes.raises "boom") none 1 false 0 0 dbEmpty :=
  (refresh_failure_served_stale (FetchRes.raises "boom") (FetchRes.raises "boom")
      none 1 false 0 0 dbEmpty).1 rfl (Or.inl ⟨"boom", rfl⟩)

/-- A payload that parses to one forecast record. -/
def c3payload : RawPayload := ⟨some ⟨some ⟨[⟨some "TestCity", []⟩], []⟩⟩⟩

/-- C3 counterexample: the payload parses to a record, the save transaction
fails at its first row (injected database error), nothing reaches the
forecasts table — yet the only audit entry is success = true with zero
records processed: a store-stage failure is not recorded as a failure in
the API call log. -/
theorem store_failure_logged_as_success :
    (process_weather_forecast c3payload).isSome = true ∧
    (get_weather_forecast_data true (FetchRes.returns (some c3payload)) (some 0) 1
        false 0 0 dbEmpty).2 =
      ⟨[], [], [⟨"F-A0010-001", "taiwan_cwa", true, some 1, some 0, none, 0⟩], []⟩ := by
  refine ⟨by decide, by decide⟩
